import Mathlib

/-!
Shallow embedding of the service-registry component
(`back/service-registry/core/service_registry.py` and
`back/service-registry/models/service.py`).

The Python registry keeps an in-memory dict `self.services` from service id
to `ServiceInfo` and mirrors every mutation to a Zookeeper coordination
backend.  We model:

* the dict as an association list `Cache := List (String × ServiceInfo)`
  (keys unique in any reachable state, as in a Python dict);
* `datetime` values as `Int` (seconds);
* Zookeeper side effects as an explicit trace of `ZkOp` values returned by
  each operation;
* the outcome of an HTTP health probe (an external event) as a
  `ProbeOutcome` parameter;
* Python truthiness tests on optional fields (`if query.name: ...`)
  faithfully: `None`, the empty string and the empty list are falsy.
-/

/-- `ServiceStatus` enumeration (`models/service.py`). -/
inductive ServiceStatus where
  | healthy
  | unhealthy
  | starting
  | stopping
  | unknown
deriving DecidableEq, Repr

/-- `ServiceType` enumeration (`models/service.py`). -/
inductive ServiceType where
  | agent
  | tool
  | api
  | database
  | gateway
  | other
deriving DecidableEq, Repr

/-- `ServiceMetadata` model.  The `extra : Dict[str, Any]` field is modelled
as an association list of string pairs (its values are never inspected by
the registry). -/
structure ServiceMetadata where
  description : Option String := none
  version : Option String := none
  tags : List String := []
  capabilities : List String := []
  dependencies : List String := []
  extra : List (String × String) := []
deriving DecidableEq, Repr

/-- `HealthCheck` configuration with its pydantic defaults. -/
structure HealthCheck where
  enabled : Bool := true
  endpoint : String := "/health"
  interval_seconds : Int := 30
  timeout_seconds : Int := 5
  retries : Int := 3
deriving DecidableEq, Repr

/-- `ServiceInfo` record held in the registry cache. -/
structure ServiceInfo where
  service_id : String
  name : String
  service_type : ServiceType
  host : String
  port : Nat
  status : ServiceStatus
  metadata : ServiceMetadata
  health_check : HealthCheck
  registered_at : Int
  last_heartbeat : Int
deriving DecidableEq, Repr

/-- `ServiceRegistration` request model. -/
structure ServiceRegistration where
  name : String
  service_type : ServiceType
  host : String
  port : Nat
  metadata : Option ServiceMetadata := none
  health_check : Option HealthCheck := none
deriving DecidableEq, Repr

/-- `ServiceUpdate` request model: every field optional. -/
structure ServiceUpdate where
  status : Option ServiceStatus := none
  metadata : Option ServiceMetadata := none
  health_check : Option HealthCheck := none
deriving DecidableEq, Repr

/-- `ServiceDiscoveryQuery` model; pydantic default for `status` is
`ServiceStatus.HEALTHY` (an omitted status filters on healthy). -/
structure ServiceDiscoveryQuery where
  service_type : Option ServiceType := none
  name : Option String := none
  tags : Option (List String) := none
  capabilities : Option (List String) := none
  status : Option ServiceStatus := some ServiceStatus.healthy
deriving DecidableEq, Repr

/-- The in-memory cache `self.services` (dict ⇒ assoc list, keys unique). -/
abbrev Cache := List (String × ServiceInfo)

/-- One Zookeeper side effect issued by a registry operation. -/
inductive ZkOp where
  | createNode (path : String) (ephemeral : Bool)
  | updateNode (path : String)
  | deleteNode (path : String)
deriving DecidableEq, Repr

/-- `settings.services_root_path` (config: "/services"). -/
def servicesRootPath : String := "/services"

/-- `settings.service_ttl` in seconds (config: 60). -/
def serviceTtl : Int := 60

/-- Zookeeper node path of a service (`f"{settings.services_root_path}/{service_id}"`). -/
def svcPath (service_id : String) : String :=
  servicesRootPath ++ "/" ++ service_id

/-- Dict lookup `self.services.get(service_id)`. -/
def cacheGet (s : Cache) (service_id : String) : Option ServiceInfo :=
  (s.find? (fun p => p.1 == service_id)).map Prod.snd

/-- Dict membership `service_id in self.services` (a key is present exactly
when lookup succeeds). -/
def cacheHas (s : Cache) (service_id : String) : Bool :=
  (cacheGet s service_id).isSome

/-- Dict write `self.services[service_id] = info`: replace in place if the
key exists (a Python dict keeps the original slot), else append. -/
def cacheSet (s : Cache) (service_id : String) (info : ServiceInfo) : Cache :=
  if cacheHas s service_id then
    s.map (fun p => if p.1 == service_id then (service_id, info) else p)
  else
    s ++ [(service_id, info)]

/-- Dict removal `self.services.pop(service_id)` (key unique in a dict). -/
def cacheDrop (s : Cache) (service_id : String) : Cache :=
  s.filter (fun p => !(p.1 == service_id))

/-- ASCII lowering, modelling Python `str.lower()` (character-wise
`Char.toLower` over the string's characters). -/
def strLower (s : String) : String := ⟨s.data.map Char.toLower⟩

/-- Does `hay` start with `needle`? (helper for the substring test). -/
def leadMatch : List Char → List Char → Bool
  | [], _ => true
  | _ :: _, [] => false
  | a :: as, b :: bs => a == b && leadMatch as bs

/-- Does `needle` occur as a contiguous run inside `hay`? -/
def subMatch (needle : List Char) : List Char → Bool
  | [] => leadMatch needle []
  | b :: bs => leadMatch needle (b :: bs) || subMatch needle bs

/-- Python `needle.lower() in hay.lower()` (case-insensitive substring). -/
def strContainsCI (hay needle : String) : Bool :=
  subMatch (strLower needle).toList (strLower hay).toList

/-- Outcome of one HTTP health probe, an event outside the program:
either a response with some status code, or a transport error / timeout
(the `except` branch). -/
inductive ProbeOutcome where
  | httpResponse (statusCode : Nat)
  | transportError
deriving DecidableEq, Repr

/-- `ServiceRegistry._matches_query`: each `if query.field and ...` guard is
modelled with Python truthiness (`None`, `""` and `[]` are falsy). -/
def matchesQuery (service : ServiceInfo) (query : ServiceDiscoveryQuery) : Bool :=
  (match query.service_type with
   | none => true
   | some t => service.service_type == t) &&
  (match query.name with
   | none => true
   | some n => (n == "") || strContainsCI service.name n) &&
  (match query.status with
   | none => true
   | some st => service.status == st) &&
  (match query.tags with
   | none => true
   | some ts => (ts == []) || ts.all (fun t => service.metadata.tags.contains t)) &&
  (match query.capabilities with
   | none => true
   | some cs => (cs == []) || cs.all (fun c => service.metadata.capabilities.contains c))

/-- `ServiceDiscoveryResponse` model. -/
structure ServiceDiscoveryResponse where
  services : List ServiceInfo
  total_count : Nat
  query : ServiceDiscoveryQuery
deriving DecidableEq, Repr

/-- `ServiceRegistry.discover_services`: filter the cache values by
`_matches_query`; no pagination. -/
def discover_services (s : Cache) (query : ServiceDiscoveryQuery) :
    ServiceDiscoveryResponse :=
  let matching := (s.map Prod.snd).filter (fun info => matchesQuery info query)
  { services := matching, total_count := matching.length, query := query }

/-- `ServiceRegistry._check_service_health` on one record, given the probe
outcome.  Returns the (possibly mutated) record and the Zookeeper writes
issued.  Disabled health checks return immediately. -/
def checkServiceHealth (info : ServiceInfo) (probe : ProbeOutcome) (now : Int) :
    ServiceInfo × List ZkOp :=
  if !info.health_check.enabled then (info, [])
  else
    match probe with
    | ProbeOutcome.httpResponse code =>
      if code == 200 then
        if info.status ≠ ServiceStatus.healthy then
          ({ info with status := ServiceStatus.healthy, last_heartbeat := now },
           [ZkOp.updateNode (svcPath info.service_id)])
        else (info, [])
      else
        if info.status ≠ ServiceStatus.unhealthy then
          ({ info with status := ServiceStatus.unhealthy },
           [ZkOp.updateNode (svcPath info.service_id)])
        else (info, [])
    | ProbeOutcome.transportError =>
      if info.status ≠ ServiceStatus.unhealthy then
        ({ info with status := ServiceStatus.unhealthy },
         [ZkOp.updateNode (svcPath info.service_id)])
      else (info, [])

/-- `ServiceRegistry.register_service`.  `newId` stands for the fresh
`uuid.uuid4()`, `now` for `datetime.utcnow()` and `probe` for the outcome of
the synchronous initial health probe.  `registration.metadata or {}` and
`registration.health_check or {}` become defaults when the field is omitted
(a present pydantic model instance is always truthy). -/
def register_service (s : Cache) (registration : ServiceRegistration)
    (newId : String) (now : Int) (probe : ProbeOutcome) :
    Cache × String × List ZkOp :=
  let info : ServiceInfo :=
    { service_id := newId
      name := registration.name
      service_type := registration.service_type
      host := registration.host
      port := registration.port
      status := ServiceStatus.starting
      metadata := registration.metadata.getD {}
      health_check := registration.health_check.getD {}
      registered_at := now
      last_heartbeat := now }
  let s1 := cacheSet s newId info
  let createOp := ZkOp.createNode (svcPath newId) true
  let checked := checkServiceHealth info probe now
  let s2 := cacheSet s1 newId checked.1
  (s2, newId, createOp :: checked.2)

/-- `ServiceRegistry.unregister_service`: unknown id ⇒ `False`, no effect;
known id ⇒ drop from cache, delete the Zookeeper node, `True`. -/
def unregister_service (s : Cache) (service_id : String) :
    Cache × Bool × List ZkOp :=
  if cacheHas s service_id then
    (cacheDrop s service_id, true, [ZkOp.deleteNode (svcPath service_id)])
  else (s, false, [])

/-- `ServiceRegistry.update_service`: partial update of status / metadata /
health_check (only fields present in `update`), bump `last_heartbeat`,
persist to Zookeeper. -/
def update_service (s : Cache) (service_id : String) (update : ServiceUpdate)
    (now : Int) : Cache × Bool × List ZkOp :=
  match cacheGet s service_id with
  | none => (s, false, [])
  | some info =>
    let info1 := match update.status with
      | none => info
      | some st => { info with status := st }
    let info2 := match update.metadata with
      | none => info1
      | some m => { info1 with metadata := m }
    let info3 := match update.health_check with
      | none => info2
      | some hc => { info2 with health_check := hc }
    let info4 := { info3 with last_heartbeat := now }
    (cacheSet s service_id info4, true, [ZkOp.updateNode (svcPath service_id)])

/-- `ServiceRegistry.get_service`. -/
def get_service (s : Cache) (service_id : String) : Option ServiceInfo :=
  cacheGet s service_id

/-- `ServiceRegistry.heartbeat`: unknown id ⇒ `False`, no effect; known id ⇒
set `last_heartbeat = now` and persist. -/
def heartbeat (s : Cache) (service_id : String) (now : Int) :
    Cache × Bool × List ZkOp :=
  match cacheGet s service_id with
  | none => (s, false, [])
  | some info =>
    (cacheSet s service_id { info with last_heartbeat := now }, true,
     [ZkOp.updateNode (svcPath service_id)])

/-- `RegistryStats` model; the per-type and per-status dicts are modelled as
counting functions (`dict.get(k, 0)` agrees with a count of zero). -/
structure RegistryStats where
  total_services : Nat
  services_by_type : ServiceType → Nat
  services_by_status : ServiceStatus → Nat
  healthy_services : Nat
  unhealthy_services : Nat

/-- `ServiceRegistry.get_registry_stats`: `healthy` counts records whose
status is exactly HEALTHY; `unhealthy = total - healthy`. -/
def get_registry_stats (s : Cache) : RegistryStats :=
  let healthy := (s.filter (fun p => p.2.status == ServiceStatus.healthy)).length
  let total := s.length
  { total_services := total
    services_by_type := fun t => (s.filter (fun p => p.2.service_type == t)).length
    services_by_status := fun st => (s.filter (fun p => p.2.status == st)).length
    healthy_services := healthy
    unhealthy_services := total - healthy }

/-- The removal loop of `cleanup_stale_services`
(`for service_id in stale_services: await self.unregister_service(...)`),
accumulating the cache state and the Zookeeper deletions. -/
def unregEach (acc : Cache × List ZkOp) : List String → Cache × List ZkOp
  | [] => acc
  | service_id :: rest =>
    let r := unregister_service acc.1 service_id
    unregEach (r.1, acc.2 ++ r.2.2) rest

/-- `ServiceRegistry.cleanup_stale_services`: collect ids whose
`last_heartbeat < now - service_ttl` (strict), unregister each through the
same path as explicit unregistration, return the count. -/
def cleanup_stale_services (s : Cache) (now : Int) : Cache × Nat × List ZkOp :=
  let cutoff := now - serviceTtl
  let staleIds := (s.filter (fun p => decide (p.2.last_heartbeat < cutoff))).map Prod.fst
  let folded := unregEach (s, []) staleIds
  (folded.1, staleIds.length, folded.2)

/-- What one persisted Zookeeper child node yields during the startup bulk
load: `missing` (node gone or empty ⇒ `get_node_data` returns `None`),
`corrupt` (undecodable JSON or model-validation failure ⇒ an exception
propagates), or a well-formed `ServiceInfo`. -/
inductive ZkNodeData where
  | missing
  | corrupt
  | valid (info : ServiceInfo)
deriving DecidableEq, Repr

/-- Body of the `for` loop of `ServiceRegistry._load_services_from_zk`.
The whole loop runs inside one `try`: the first corrupt entry raises, the
exception is caught OUTSIDE the loop, and the remaining children are never
processed. -/
def loadLoop (s : Cache) : List (String × ZkNodeData) → Cache
  | [] => s
  | (service_id, d) :: rest =>
    match d with
    | ZkNodeData.missing => loadLoop s rest
    | ZkNodeData.corrupt => s
    | ZkNodeData.valid info => loadLoop (cacheSet s service_id info) rest

/-- `ServiceRegistry._load_services_from_zk`, given the children listing of
the services root and each child's persisted data. -/
def load_services_from_zk (s : Cache) (children : List (String × ZkNodeData)) :
    Cache :=
  loadLoop s children

/-! ### Cache lemmas -/

theorem cacheGet_cons (p : String × ServiceInfo) (rest : Cache) (service_id : String) :
    cacheGet (p :: rest) service_id =
      if p.1 == service_id then some p.2 else cacheGet rest service_id := by
  by_cases h : p.1 == service_id
  · simp [cacheGet, List.find?_cons_of_pos, h]
  · simp only [cacheGet, List.find?_cons_of_neg _ h]
    simp [h]

theorem cacheHas_eq_false_iff_get_none (s : Cache) (service_id : String) :
    cacheHas s service_id = false ↔ cacheGet s service_id = none := by
  unfold cacheHas
  cases cacheGet s service_id <;> simp

theorem cacheGet_replace_self (s : Cache) (service_id : String) (info : ServiceInfo)
    (h : cacheGet s service_id ≠ none) :
    cacheGet (s.map (fun p => if p.1 == service_id then (service_id, info) else p))
      service_id = some info := by
  induction s with
  | nil => simp [cacheGet] at h
  | cons p rest ih =>
    by_cases hp : p.1 == service_id
    · rw [List.map_cons, if_pos hp, cacheGet_cons]
      simp
    · rw [List.map_cons, if_neg hp, cacheGet_cons]
      rw [cacheGet_cons] at h
      simp only [hp, if_false] at h ⊢
      exact ih h

theorem cacheGet_replace_other (s : Cache) (service_id other : String)
    (info : ServiceInfo) (hne : (service_id == other) = false) :
    cacheGet (s.map (fun p => if p.1 == service_id then (service_id, info) else p))
      other = cacheGet s other := by
  induction s with
  | nil => simp
  | cons p rest ih =>
    by_cases hp : p.1 == service_id
    · have hpo : (p.1 == other) = false := by
        have h1 : p.1 = service_id := by simpa using hp
        simpa [h1] using hne
      rw [List.map_cons, if_pos hp, cacheGet_cons, cacheGet_cons]
      simp only [hne, hpo, if_false]
      exact ih
    · rw [List.map_cons, if_neg hp, cacheGet_cons, cacheGet_cons]
      by_cases hpo : p.1 == other
      · simp [hpo]
      · simp only [hpo, if_false]
        exact ih

theorem cacheGet_append_single_self (s : Cache) (service_id : String)
    (info : ServiceInfo) (h : cacheGet s service_id = none) :
    cacheGet (s ++ [(service_id, info)]) service_id = some info := by
  induction s with
  | nil => simp [cacheGet_cons]
  | cons p rest ih =>
    rw [cacheGet_cons] at h
    by_cases hp : p.1 == service_id
    · simp [hp] at h
    · simp only [hp, if_false] at h
      rw [List.cons_append, cacheGet_cons]
      simp only [hp, if_false]
      exact ih h

theorem cacheGet_append_single_other (s : Cache) (service_id other : String)
    (info : ServiceInfo) (hne : (service_id == other) = false) :
    cacheGet (s ++ [(service_id, info)]) other = cacheGet s other := by
  induction s with
  | nil => simp [cacheGet_cons, hne, cacheGet]
  | cons p rest ih =>
    rw [List.cons_append, cacheGet_cons, cacheGet_cons]
    by_cases hpo : p.1 == other
    · simp [hpo]
    · simp only [hpo, if_false]
      exact ih

theorem cacheGet_cacheSet_self (s : Cache) (service_id : String) (info : ServiceInfo) :
    cacheGet (cacheSet s service_id info) service_id = some info := by
  unfold cacheSet
  by_cases h : cacheHas s service_id
  · rw [if_pos h]
    apply cacheGet_replace_self
    intro hnone
    rw [← cacheHas_eq_false_iff_get_none] at hnone
    simp [h] at hnone
  · rw [if_neg h]
    apply cacheGet_append_single_self
    rw [← cacheHas_eq_false_iff_get_none]
    simpa using h

theorem cacheGet_cacheSet_other (s : Cache) (service_id other : String)
    (info : ServiceInfo) (hne : other ≠ service_id) :
    cacheGet (cacheSet s service_id info) other = cacheGet s other := by
  have hbeq : (service_id == other) = false := by
    simp [Ne.symm hne]
  unfold cacheSet
  by_cases h : cacheHas s service_id
  · rw [if_pos h]
    exact cacheGet_replace_other s service_id other info hbeq
  · rw [if_neg h]
    exact cacheGet_append_single_other s service_id other info hbeq

theorem cacheGet_cacheDrop_self (s : Cache) (service_id : String) :
    cacheGet (cacheDrop s service_id) service_id = none := by
  induction s with
  | nil => rfl
  | cons p rest ih =>
    unfold cacheDrop at ih ⊢
    rw [List.filter_cons]
    by_cases hp : p.1 == service_id
    · simp only [hp, Bool.not_true, if_false]
      exact ih
    · simp only [hp, Bool.not_false, if_true]
      rw [cacheGet_cons]
      simp only [hp, if_false]
      exact ih

theorem cacheGet_cacheDrop_other (s : Cache) (service_id other : String)
    (hne : other ≠ service_id) :
    cacheGet (cacheDrop s service_id) other = cacheGet s other := by
  induction s with
  | nil => rfl
  | cons p rest ih =>
    unfold cacheDrop at ih ⊢
    rw [List.filter_cons]
    by_cases hp : p.1 == service_id
    · have hpo : (p.1 == other) = false := by
        have h1 : p.1 = service_id := by simpa using hp
        simp [h1, Ne.symm hne]
      simp only [hp, Bool.not_true, if_false]
      rw [cacheGet_cons]
      simp only [hpo, if_false]
      exact ih
    · simp only [hp, Bool.not_false, if_true]
      rw [cacheGet_cons, cacheGet_cons]
      by_cases hpo : p.1 == other
      · simp [hpo]
      · simp only [hpo, if_false]
        exact ih

/-! ### Concrete records used by witnesses -/

/-- A concrete metadata value for witness instances. -/
def sampleMeta : ServiceMetadata :=
  { tags := ["chat", "v2"], capabilities := ["search"] }

/-- A concrete cached record for witness instances. -/
def sampleInfo : ServiceInfo :=
  { service_id := "svc-1"
    name := "Chat-Service"
    service_type := ServiceType.api
    host := "localhost"
    port := 8080
    status := ServiceStatus.healthy
    metadata := sampleMeta
    health_check := {}
    registered_at := 0
    last_heartbeat := 100 }

/-! ### C7 -/

/-- C7: for every service_id absent from the cache, `unregister_service` and
`heartbeat` both return `false`, leave the cache unchanged, and issue no
Zookeeper operation. -/
theorem unknown_id_noop (s : Cache) (service_id : String) (now : Int)
    (h : cacheGet s service_id = none) :
    unregister_service s service_id = (s, false, []) ∧
    heartbeat s service_id now = (s, false, []) := by
  have hh : cacheHas s service_id = false :=
    (cacheHas_eq_false_iff_get_none s service_id).mpr h
  constructor
  · simp [unregister_service, hh]
  · simp [heartbeat, h]

/-- Witness for C7 at a concrete non-empty cache and an unknown id. -/
theorem unknown_id_noop_witness :
    cacheGet [("svc-1", sampleInfo)] "svc-2" = none ∧
    (unregister_service [("svc-1", sampleInfo)] "svc-2" =
        ([("svc-1", sampleInfo)], false, []) ∧
     heartbeat [("svc-1", sampleInfo)] "svc-2" 5 =
        ([("svc-1", sampleInfo)], false, [])) :=
  ⟨by decide, unknown_id_noop [("svc-1", sampleInfo)] "svc-2" 5 (by decide)⟩

/-! ### C9 -/

/-- C9: `get_registry_stats` sets `unhealthy_services` to
`total_services - healthy_services` where `healthy_services` counts records
whose status is exactly `healthy`; hence `unhealthy_services` counts every
record in any non-healthy status (starting, stopping and unknown included),
and `total_services = healthy_services + unhealthy_services`. -/
theorem registry_stats_unhealthy_convention (s : Cache) :
    (get_registry_stats s).healthy_services =
      (s.filter (fun p => p.2.status == ServiceStatus.healthy)).length ∧
    (get_registry_stats s).unhealthy_services =
      (get_registry_stats s).total_services - (get_registry_stats s).healthy_services ∧
    (get_registry_stats s).unhealthy_services =
      (s.filter (fun p => !(p.2.status == ServiceStatus.healthy))).length ∧
    (get_registry_stats s).total_services =
      (get_registry_stats s).healthy_services + (get_registry_stats s).unhealthy_services := by
  have hsplit : s.length =
      (s.filter (fun p => p.2.status == ServiceStatus.healthy)).length +
      (s.filter (fun p => !(p.2.status == ServiceStatus.healthy))).length :=
    List.length_eq_length_filter_add _
  refine ⟨?_, ?_, ?_, ?_⟩ <;> simp [get_registry_stats] <;> omega

/-! ### C8 -/

/-- C8: for a known service_id, `update_service` returns `true`, changes
exactly the fields present in the update plus `last_heartbeat` (set to now),
keeps `service_id`, `name`, `service_type`, `host`, `port` and
`registered_at` intact, and leaves every other cached record unchanged. -/
theorem update_service_frame (s : Cache) (service_id : String)
    (u : ServiceUpdate) (now : Int) (info : ServiceInfo)
    (h : cacheGet s service_id = some info) :
    (update_service s service_id u now).2.1 = true ∧
    (∃ info2, cacheGet (update_service s service_id u now).1 service_id = some info2 ∧
      info2.status = u.status.getD info.status ∧
      info2.metadata = u.metadata.getD info.metadata ∧
      info2.health_check = u.health_check.getD info.health_check ∧
      info2.last_heartbeat = now ∧
      info2.service_id = info.service_id ∧
      info2.name = info.name ∧
      info2.service_type = info.service_type ∧
      info2.host = info.host ∧
      info2.port = info.port ∧
      info2.registered_at = info.registered_at) ∧
    (∀ other, other ≠ service_id →
      cacheGet (update_service s service_id u now).1 other = cacheGet s other) := by
  simp only [update_service, h]
  refine ⟨trivial, ?_, ?_⟩
  · refine ⟨_, cacheGet_cacheSet_self _ _ _, ?_⟩
    cases u.status <;> cases u.metadata <;> cases u.health_check <;>
      simp [Option.getD]
  · intro other hne
    exact cacheGet_cacheSet_other s service_id other _ hne

/-- A concrete partial update for the C8 witness: only `status` present. -/
def sampleUpdate : ServiceUpdate := { status := some ServiceStatus.stopping }

/-- Witness for C8: concrete one-record cache, update touching only status. -/
theorem update_service_frame_witness :
    cacheGet [("svc-1", sampleInfo)] "svc-1" = some sampleInfo ∧
    ((update_service [("svc-1", sampleInfo)] "svc-1" sampleUpdate 200).2.1 = true ∧
     (∃ info2, cacheGet (update_service [("svc-1", sampleInfo)] "svc-1" sampleUpdate 200).1
          "svc-1" = some info2 ∧
       info2.status = sampleUpdate.status.getD sampleInfo.status ∧
       info2.metadata = sampleUpdate.metadata.getD sampleInfo.metadata ∧
       info2.health_check = sampleUpdate.health_check.getD sampleInfo.health_check ∧
       info2.last_heartbeat = 200 ∧
       info2.service_id = sampleInfo.service_id ∧
       info2.name = sampleInfo.name ∧
       info2.service_type = sampleInfo.service_type ∧
       info2.host = sampleInfo.host ∧
       info2.port = sampleInfo.port ∧
       info2.registered_at = sampleInfo.registered_at) ∧
     (∀ other, other ≠ "svc-1" →
       cacheGet (update_service [("svc-1", sampleInfo)] "svc-1" sampleUpdate 200).1 other =
         cacheGet [("svc-1", sampleInfo)] other)) :=
  ⟨by decide,
   update_service_frame [("svc-1", sampleInfo)] "svc-1" sampleUpdate 200 sampleInfo
     (by decide)⟩

/-! ### C1 -/

/-- The empty needle is a substring of every string. -/
theorem strContainsCI_empty_needle (hay : String) : strContainsCI hay "" = true := by
  unfold strContainsCI
  have h1 : (strLower "").toList = [] := rfl
  rw [h1]
  cases (strLower hay).toList with
  | nil => rfl
  | cons b bs => simp [subMatch, leadMatch]

/-- The truthiness escape of the name guard collapses: the empty needle is
always a substring. -/
theorem empty_needle_or_iff (hay n : String) :
    (n = "" ∨ strContainsCI hay n = true) ↔ strContainsCI hay n = true := by
  constructor
  · rintro (h | h)
    · subst h
      exact strContainsCI_empty_needle hay
    · exact h
  · exact Or.inr

/-- The truthiness escape of the tags / capabilities guard collapses: the
empty set is a subset of anything. -/
theorem empty_or_subset_iff {α : Type} (v elems : List α) :
    (v = [] ∨ ∀ x ∈ v, x ∈ elems) ↔ ∀ x ∈ v, x ∈ elems := by
  constructor
  · rintro (h | h)
    · subst h
      intro x hx
      cases hx
    · exact h
  · exact Or.inr

/-- `_matches_query` is equivalent to the conjunction of the five
spec-level filter conditions, each conditioned on the filter being
non-null. -/
theorem matchesQuery_iff (r : ServiceInfo) (q : ServiceDiscoveryQuery) :
    matchesQuery r q = true ↔
      ((∀ t, q.service_type = some t → r.service_type = t) ∧
       (∀ n, q.name = some n → strContainsCI r.name n = true) ∧
       (∀ st, q.status = some st → r.status = st) ∧
       (∀ ts, q.tags = some ts → ∀ t ∈ ts, r.metadata.tags.contains t = true) ∧
       (∀ cs, q.capabilities = some cs →
          ∀ c ∈ cs, r.metadata.capabilities.contains c = true)) := by
  obtain ⟨qt, qn, qtags, qcaps, qst⟩ := q
  unfold matchesQuery
  simp only [Bool.and_eq_true]
  cases qt <;> cases qn <;> cases qst <;> cases qtags <;> cases qcaps <;>
    simp [empty_needle_or_iff, empty_or_subset_iff, and_assoc]

/-- C1: a cached record appears in `discover_services` exactly when it
satisfies every non-null filter of the query (type exact, name
case-insensitive substring, status exact, tags subset, capabilities
subset); `total_count` equals the number of returned services, the query is
echoed back, and an omitted query status defaults to `healthy`. -/
theorem discover_filter_correct (s : Cache) (q : ServiceDiscoveryQuery)
    (r : ServiceInfo) (hr : r ∈ s.map Prod.snd) :
    (r ∈ (discover_services s q).services ↔
      ((∀ t, q.service_type = some t → r.service_type = t) ∧
       (∀ n, q.name = some n → strContainsCI r.name n = true) ∧
       (∀ st, q.status = some st → r.status = st) ∧
       (∀ ts, q.tags = some ts → ∀ t ∈ ts, r.metadata.tags.contains t = true) ∧
       (∀ cs, q.capabilities = some cs →
          ∀ c ∈ cs, r.metadata.capabilities.contains c = true))) ∧
    (discover_services s q).total_count = (discover_services s q).services.length ∧
    (discover_services s q).query = q ∧
    ({} : ServiceDiscoveryQuery).status = some ServiceStatus.healthy := by
  refine ⟨?_, rfl, rfl, rfl⟩
  rw [← matchesQuery_iff r q]
  show r ∈ (s.map Prod.snd).filter (fun info => matchesQuery info q) ↔ _
  rw [List.mem_filter]
  simp [hr]

/-- A concrete discovery query for the C1 witness. -/
def sampleQuery : ServiceDiscoveryQuery :=
  { service_type := some ServiceType.api
    name := some "chat"
    tags := some ["chat"]
    capabilities := some ["search"]
    status := some ServiceStatus.healthy }

/-- Witness for C1: a one-record cache and a query with every filter set. -/
theorem discover_filter_correct_witness :
    sampleInfo ∈ ([("svc-1", sampleInfo)] : Cache).map Prod.snd ∧
    ((sampleInfo ∈ (discover_services [("svc-1", sampleInfo)] sampleQuery).services ↔
      ((∀ t, sampleQuery.service_type = some t → sampleInfo.service_type = t) ∧
       (∀ n, sampleQuery.name = some n → strContainsCI sampleInfo.name n = true) ∧
       (∀ st, sampleQuery.status = some st → sampleInfo.status = st) ∧
       (∀ ts, sampleQuery.tags = some ts →
          ∀ t ∈ ts, sampleInfo.metadata.tags.contains t = true) ∧
       (∀ cs, sampleQuery.capabilities = some cs →
          ∀ c ∈ cs, sampleInfo.metadata.capabilities.contains c = true))) ∧
     (discover_services [("svc-1", sampleInfo)] sampleQuery).total_count =
       (discover_services [("svc-1", sampleInfo)] sampleQuery).services.length ∧
     (discover_services [("svc-1", sampleInfo)] sampleQuery).query = sampleQuery ∧
     ({} : ServiceDiscoveryQuery).status = some ServiceStatus.healthy) :=
  ⟨by decide,
   discover_filter_correct [("svc-1", sampleInfo)] sampleQuery sampleInfo (by decide)⟩

/-! ### C3 -/

theorem unregister_cache_eq_filter (s : Cache) (service_id : String) :
    (unregister_service s service_id).1 =
      s.filter (fun p => !(p.1 == service_id)) := by
  unfold unregister_service
  by_cases h : cacheHas s service_id
  · simp [h, cacheDrop]
  · simp only [h, Bool.false_eq_true, if_false]
    have hg : cacheGet s service_id = none := by
      rw [← cacheHas_eq_false_iff_get_none]
      simpa using h
    unfold cacheGet at hg
    have hfind : s.find? (fun p => p.1 == service_id) = none := by
      cases hf : s.find? (fun p => p.1 == service_id) with
      | none => rfl
      | some p => rw [hf] at hg; cases hg
    have hall := List.find?_eq_none.mp hfind
    symm
    rw [List.filter_eq_self]
    intro p hp
    have := hall p hp
    simp only [Bool.not_eq_true] at this ⊢
    simp [this]

theorem unregEach_cache (ids : List String) (s : Cache) (acc : List ZkOp) :
    (unregEach (s, acc) ids).1 =
      s.filter (fun p => ids.all (fun i => !(p.1 == i))) := by
  induction ids generalizing s acc with
  | nil => simp [unregEach]
  | cons i rest ih =>
    simp only [unregEach]
    rw [ih, unregister_cache_eq_filter, List.filter_filter]
    apply List.filter_congr
    intro p hp
    simp [Bool.and_comm]

theorem cacheHas_iff_exists (s : Cache) (service_id : String) :
    cacheHas s service_id = true ↔ ∃ p ∈ s, (p.1 == service_id) = true := by
  unfold cacheHas cacheGet
  constructor
  · intro h
    cases hf : s.find? (fun p => p.1 == service_id) with
    | none => rw [hf] at h; cases h
    | some p =>
      have hmem := List.mem_of_find?_eq_some hf
      have hps := List.find?_some hf
      exact ⟨p, hmem, by simpa using hps⟩
  · rintro ⟨p, hp, hpred⟩
    cases hf : s.find? (fun p => p.1 == service_id) with
    | none =>
      exact absurd hpred (List.find?_eq_none.mp hf p hp)
    | some q => simp [hf]

theorem unregEach_ops (ids : List String) (s : Cache) (acc : List ZkOp)
    (hnodup : ids.Nodup) (hpresent : ∀ i ∈ ids, cacheHas s i = true) :
    (unregEach (s, acc) ids).2 =
      acc ++ ids.map (fun i => ZkOp.deleteNode (svcPath i)) := by
  induction ids generalizing s acc with
  | nil => simp [unregEach]
  | cons i rest ih =>
    have hi : cacheHas s i = true := hpresent i (by simp)
    simp only [unregEach, unregister_service, hi, if_true]
    have hrest : ∀ j ∈ rest, cacheHas (cacheDrop s i) j = true := by
      intro j hj
      have hji : j ≠ i := by
        intro he
        subst he
        exact (List.nodup_cons.mp hnodup).1 hj
      unfold cacheHas
      rw [cacheGet_cacheDrop_other s i j hji]
      exact hpresent j (List.mem_cons_of_mem _ hj)
    rw [ih _ _ (List.nodup_cons.mp hnodup).2 hrest]
    simp

theorem cacheGet_filter_keep (s : Cache) (service_id : String)
    (pred : String × ServiceInfo → Bool)
    (h : ∀ p, (p.1 == service_id) = true → pred p = true) :
    cacheGet (s.filter pred) service_id = cacheGet s service_id := by
  induction s with
  | nil => rfl
  | cons p rest ih =>
    rw [List.filter_cons]
    by_cases hp : p.1 == service_id
    · rw [if_pos (by rw [h p hp])]
      rw [cacheGet_cons, cacheGet_cons]
      simp [hp]
    · by_cases hpred : pred p
      · rw [if_pos (by rw [hpred])]
        rw [cacheGet_cons, cacheGet_cons]
        simp only [hp, if_false]
        exact ih
      · rw [if_neg (by rw [Bool.not_eq_true] at hpred; rw [hpred]; simp)]
        rw [cacheGet_cons]
        simp only [hp, if_false]
        exact ih

theorem cacheGet_filter_none (s : Cache) (service_id : String)
    (pred : String × ServiceInfo → Bool)
    (h : ∀ p, (p.1 == service_id) = true → pred p = false) :
    cacheGet (s.filter pred) service_id = none := by
  induction s with
  | nil => rfl
  | cons p rest ih =>
    rw [List.filter_cons]
    by_cases hp : p.1 == service_id
    · rw [if_neg (by rw [h p hp]; simp)]
      exact ih
    · by_cases hpred : pred p
      · rw [if_pos (by rw [hpred])]
        rw [cacheGet_cons]
        simp only [hp, if_false]
        exact ih
      · rw [if_neg (by rw [Bool.not_eq_true] at hpred; rw [hpred]; simp)]
        exact ih

theorem cacheGet_some_mem (s : Cache) (service_id : String) (info : ServiceInfo)
    (h : cacheGet s service_id = some info) : (service_id, info) ∈ s := by
  unfold cacheGet at h
  cases hfind : s.find? (fun p => p.1 == service_id) with
  | none => rw [hfind] at h; cases h
  | some p =>
    rw [hfind] at h
    have hmem := List.mem_of_find?_eq_some hfind
    have hpred := List.find?_some hfind
    have hp1 : p.1 = service_id := by simpa using hpred
    have hp2 : p.2 = info := by simpa using h
    have hpe : p = (service_id, info) := by
      obtain ⟨a, b⟩ := p
      simp only at hp1 hp2
      rw [hp1, hp2]
    rwa [hpe] at hmem

theorem keyVal_unique (s : Cache) (hnodup : (s.map Prod.fst).Nodup)
    (service_id : String) (info : ServiceInfo)
    (h : cacheGet s service_id = some info)
    (q : String × ServiceInfo) (hq : q ∈ s) (hqid : q.1 = service_id) :
    q.2 = info := by
  induction s with
  | nil => cases hq
  | cons p rest ih =>
    rw [cacheGet_cons] at h
    rw [List.map_cons, List.nodup_cons] at hnodup
    rcases List.mem_cons.mp hq with he | hq'
    · subst he
      have hb : (q.1 == service_id) = true := by simp [hqid]
      rw [if_pos hb] at h
      exact Option.some.inj h
    · by_cases hp : p.1 == service_id
      · exfalso
        have hp1 : p.1 = service_id := by simpa using hp
        apply hnodup.1
        rw [hp1, ← hqid]
        exact List.mem_map.mpr ⟨q, hq', rfl⟩
      · rw [if_neg hp] at h
        exact ih hnodup.2 h hq'

/-- C3: `cleanup_stale_services` removes exactly the cached records whose
`last_heartbeat` is strictly earlier than `now - service_ttl`; every other
record is kept unchanged; the returned count equals the number of removed
records; and each removal issues the same coordination-backend node
deletion as explicit unregistration. -/
theorem cleanup_stale_boundary (s : Cache) (now : Int)
    (hnodup : (s.map Prod.fst).Nodup) :
    (∀ service_id info, cacheGet s service_id = some info →
      ((info.last_heartbeat < now - serviceTtl →
          cacheGet (cleanup_stale_services s now).1 service_id = none) ∧
       (¬ info.last_heartbeat < now - serviceTtl →
          cacheGet (cleanup_stale_services s now).1 service_id = some info))) ∧
    (cleanup_stale_services s now).2.1 =
      (s.filter (fun p => decide (p.2.last_heartbeat < now - serviceTtl))).length ∧
    (cleanup_stale_services s now).2.2 =
      (s.filter (fun p => decide (p.2.last_heartbeat < now - serviceTtl))).map
        (fun p => ZkOp.deleteNode (svcPath p.1)) := by
  have hcache : (cleanup_stale_services s now).1 =
      s.filter (fun p =>
        ((s.filter (fun q => decide (q.2.last_heartbeat < now - serviceTtl))).map
          Prod.fst).all (fun i => !(p.1 == i))) := by
    simp only [cleanup_stale_services]
    exact unregEach_cache _ _ _
  have hsubl : ((s.filter (fun q =>
        decide (q.2.last_heartbeat < now - serviceTtl))).map Prod.fst).Sublist
      (s.map Prod.fst) :=
    List.Sublist.map _ (List.filter_sublist _)
  have hnodupStale : ((s.filter (fun q =>
      decide (q.2.last_heartbeat < now - serviceTtl))).map Prod.fst).Nodup :=
    List.Nodup.sublist hsubl hnodup
  have hpres : ∀ i ∈ (s.filter (fun q =>
      decide (q.2.last_heartbeat < now - serviceTtl))).map Prod.fst,
      cacheHas s i = true := by
    intro i hi
    rcases List.mem_map.mp hi with ⟨q, hq, rfl⟩
    exact (cacheHas_iff_exists s q.1).mpr ⟨q, (List.mem_filter.mp hq).1, by simp⟩
  refine ⟨?_, ?_, ?_⟩
  · intro service_id info hget
    constructor
    · intro hstale
      rw [hcache]
      apply cacheGet_filter_none
      intro p hp
      have hp1 : p.1 = service_id := by simpa using hp
      have hpair := cacheGet_some_mem s service_id info hget
      have hmemf : (service_id, info) ∈
          s.filter (fun q => decide (q.2.last_heartbeat < now - serviceTtl)) :=
        List.mem_filter.mpr ⟨hpair, by simpa using hstale⟩
      have hmemid : service_id ∈ (s.filter (fun q =>
          decide (q.2.last_heartbeat < now - serviceTtl))).map Prod.fst :=
        List.mem_map.mpr ⟨_, hmemf, rfl⟩
      rw [Bool.eq_false_iff]
      intro hall
      have hcontra := List.all_eq_true.mp hall service_id hmemid
      rw [hp1] at hcontra
      simp at hcontra
    · intro hfresh
      rw [hcache]
      rw [cacheGet_filter_keep]
      · exact hget
      · intro p hp
        have hp1 : p.1 = service_id := by simpa using hp
        apply List.all_eq_true.mpr
        intro i hi
        rcases List.mem_map.mp hi with ⟨q, hq, rfl⟩
        rcases List.mem_filter.mp hq with ⟨hqs, hqstale⟩
        have hne : q.1 ≠ service_id := by
          intro he
          have hv : q.2 = info := keyVal_unique s hnodup service_id info hget q hqs he
          rw [hv] at hqstale
          exact hfresh (by simpa using hqstale)
        have hb : (p.1 == q.1) = false := by
          rw [hp1]
          simp [Ne.symm hne]
        simp [hb]
  · simp [cleanup_stale_services]
  · simp only [cleanup_stale_services]
    rw [unregEach_ops _ _ _ hnodupStale hpres]
    simp [List.map_map, Function.comp]

/-! ### C2 -/

/-- One health probe either leaves the record unchanged, marks it healthy
and refreshes the heartbeat, or marks it unhealthy; no other field is ever
touched. -/
theorem checkServiceHealth_shape (info : ServiceInfo) (probe : ProbeOutcome)
    (now : Int) :
    (checkServiceHealth info probe now).1 = info ∨
    (checkServiceHealth info probe now).1 =
      { info with status := ServiceStatus.healthy, last_heartbeat := now } ∨
    (checkServiceHealth info probe now).1 =
      { info with status := ServiceStatus.unhealthy } := by
  unfold checkServiceHealth
  cases probe <;> by_cases he : info.health_check.enabled <;>
    simp [he] <;> split_ifs <;> simp

/-- With health checks enabled, one probe always leaves the record healthy
or unhealthy, whatever its previous status. -/
theorem checkServiceHealth_status_enabled (info : ServiceInfo)
    (probe : ProbeOutcome) (now : Int)
    (he : info.health_check.enabled = true) :
    (checkServiceHealth info probe now).1.status = ServiceStatus.healthy ∨
    (checkServiceHealth info probe now).1.status = ServiceStatus.unhealthy := by
  unfold checkServiceHealth
  cases probe with
  | httpResponse code =>
    by_cases hc : (code == 200) = true <;>
      by_cases hs : info.status = ServiceStatus.healthy <;>
        by_cases hu : info.status = ServiceStatus.unhealthy <;>
          simp [he, hc, hs, hu]
  | transportError =>
    by_cases hu : info.status = ServiceStatus.unhealthy <;> simp [he, hu]

/-- Looking up the fresh id right after `register_service` returns the
probed version of the record built from the registration. -/
theorem register_service_get (s : Cache) (registration : ServiceRegistration)
    (newId : String) (now : Int) (probe : ProbeOutcome) :
    get_service (register_service s registration newId now probe).1 newId =
      some (checkServiceHealth
        { service_id := newId
          name := registration.name
          service_type := registration.service_type
          host := registration.host
          port := registration.port
          status := ServiceStatus.starting
          metadata := registration.metadata.getD {}
          health_check := registration.health_check.getD {}
          registered_at := now
          last_heartbeat := now } probe now).1 := by
  unfold register_service get_service
  exact cacheGet_cacheSet_self _ _ _

/-- C2 (amended): after `register_service` returns an id, `get_service` on
that id yields a record carrying the request's name, type, host and port;
whenever the effective health-check policy is enabled — in particular
whenever the registration omits `health_check` — the synchronous initial
probe has completed and the status is `healthy` or `unhealthy`, never
`starting`.  (A registration that disables health checks keeps `starting`.) -/
theorem register_roundtrip (s : Cache) (registration : ServiceRegistration)
    (newId : String) (now : Int) (probe : ProbeOutcome)
    (henabled : (registration.health_check.getD {}).enabled = true) :
    ∃ r, get_service (register_service s registration newId now probe).1 newId =
        some r ∧
      r.name = registration.name ∧
      r.service_type = registration.service_type ∧
      r.host = registration.host ∧
      r.port = registration.port ∧
      (r.status = ServiceStatus.healthy ∨ r.status = ServiceStatus.unhealthy) := by
  refine ⟨_, register_service_get s registration newId now probe, ?_, ?_, ?_, ?_, ?_⟩
  · rcases checkServiceHealth_shape _ probe now with h | h | h <;> rw [h]
  · rcases checkServiceHealth_shape _ probe now with h | h | h <;> rw [h]
  · rcases checkServiceHealth_shape _ probe now with h | h | h <;> rw [h]
  · rcases checkServiceHealth_shape _ probe now with h | h | h <;> rw [h]
  · exact checkServiceHealth_status_enabled _ probe now henabled

/-- A plain registration that never mentions health checks or metadata. -/
def plainRegistration : ServiceRegistration :=
  { name := "chat-api"
    service_type := ServiceType.api
    host := "10.0.0.5"
    port := 8080 }

/-- Witness for C2 at a concrete registration and a 200 probe. -/
theorem register_roundtrip_witness :
    (plainRegistration.health_check.getD {}).enabled = true ∧
    (∃ r, get_service (register_service [] plainRegistration "svc-9" 50
          (ProbeOutcome.httpResponse 200)).1 "svc-9" = some r ∧
       r.name = plainRegistration.name ∧
       r.service_type = plainRegistration.service_type ∧
       r.host = plainRegistration.host ∧
       r.port = plainRegistration.port ∧
       (r.status = ServiceStatus.healthy ∨ r.status = ServiceStatus.unhealthy)) :=
  ⟨by decide,
   register_roundtrip [] plainRegistration "svc-9" 50
     (ProbeOutcome.httpResponse 200) (by decide)⟩

/-- A registration that explicitly disables health checks. -/
def disabledRegistration : ServiceRegistration :=
  { name := "batch-worker"
    service_type := ServiceType.other
    host := "localhost"
    port := 9000
    health_check := some { enabled := false } }

/-- Counterexample to C2 as stated: when the registration disables health
checks, the initial probe returns without touching the record and the
status is still `starting` right after `register_service`, so the claim's
"never still starting" fails. -/
theorem register_disabled_still_starting :
    (get_service (register_service [] disabledRegistration "svc-d" 0
        (ProbeOutcome.httpResponse 200)).1 "svc-d").map ServiceInfo.status =
      some ServiceStatus.starting := by decide

/-! ### C10 -/

/-- C10: a registration omitting `health_check` stores the default policy
(enabled, "/health", 30 s interval, 5 s timeout, 3 retries) and an omitted
`metadata` stores the empty defaults; since the default policy is enabled,
the initial probe runs and the stored status has left `starting`. -/
theorem register_default_policy (s : Cache) (registration : ServiceRegistration)
    (newId : String) (now : Int) (probe : ProbeOutcome)
    (hhc : registration.health_check = none)
    (hmeta : registration.metadata = none) :
    ∃ r, get_service (register_service s registration newId now probe).1 newId =
        some r ∧
      r.health_check = { enabled := true, endpoint := "/health",
                         interval_seconds := 30, timeout_seconds := 5,
                         retries := 3 } ∧
      r.metadata = { description := none, version := none, tags := [],
                     capabilities := [], dependencies := [], extra := [] } ∧
      (r.status = ServiceStatus.healthy ∨ r.status = ServiceStatus.unhealthy) := by
  refine ⟨_, register_service_get s registration newId now probe, ?_, ?_, ?_⟩
  · rcases checkServiceHealth_shape _ probe now with h | h | h <;> rw [h] <;>
      simp [hhc]
  · rcases checkServiceHealth_shape _ probe now with h | h | h <;> rw [h] <;>
      simp [hmeta]
  · apply checkServiceHealth_status_enabled _ probe now
    simp [hhc]

/-- Witness for C10 at the plain registration and a failing probe. -/
theorem register_default_policy_witness :
    plainRegistration.health_check = none ∧ plainRegistration.metadata = none ∧
    (∃ r, get_service (register_service [] plainRegistration "svc-10" 7
          ProbeOutcome.transportError).1 "svc-10" = some r ∧
       r.health_check = { enabled := true, endpoint := "/health",
                          interval_seconds := 30, timeout_seconds := 5,
                          retries := 3 } ∧
       r.metadata = { description := none, version := none, tags := [],
                      capabilities := [], dependencies := [], extra := [] } ∧
       (r.status = ServiceStatus.healthy ∨ r.status = ServiceStatus.unhealthy)) :=
  ⟨rfl, rfl,
   register_default_policy [] plainRegistration "svc-10" 7
     ProbeOutcome.transportError rfl rfl⟩

/-! ### C4 -/

/-- C4 (amended): with health checks enabled, a probe answered HTTP 200
marks the record healthy and refreshes `last_heartbeat` exactly when the
status was not already `healthy`; on an already-healthy record the probe
leaves the record — `last_heartbeat` included — completely unchanged and
issues no write. -/
theorem probe_refresh_on_transition (info : ServiceInfo) (now : Int)
    (he : info.health_check.enabled = true) :
    (info.status ≠ ServiceStatus.healthy →
      (checkServiceHealth info (ProbeOutcome.httpResponse 200) now).1.status =
          ServiceStatus.healthy ∧
      (checkServiceHealth info (ProbeOutcome.httpResponse 200) now).1.last_heartbeat =
          now) ∧
    (info.status = ServiceStatus.healthy →
      (checkServiceHealth info (ProbeOutcome.httpResponse 200) now).1 = info ∧
      (checkServiceHealth info (ProbeOutcome.httpResponse 200) now).2 = []) := by
  unfold checkServiceHealth
  constructor
  · intro hs
    simp [he, hs]
  · intro hs
    simp [he, hs]

/-- A record that has not yet completed its first probe. -/
def startingInfo : ServiceInfo :=
  { sampleInfo with service_id := "svc-s", status := ServiceStatus.starting }

/-- Witness for C4: a starting record probed with HTTP 200 at time 500. -/
theorem probe_refresh_on_transition_witness :
    startingInfo.health_check.enabled = true ∧
    ((startingInfo.status ≠ ServiceStatus.healthy →
      (checkServiceHealth startingInfo (ProbeOutcome.httpResponse 200) 500).1.status =
          ServiceStatus.healthy ∧
      (checkServiceHealth startingInfo (ProbeOutcome.httpResponse 200) 500).1.last_heartbeat =
          500) ∧
     (startingInfo.status = ServiceStatus.healthy →
      (checkServiceHealth startingInfo (ProbeOutcome.httpResponse 200) 500).1 =
          startingInfo ∧
      (checkServiceHealth startingInfo (ProbeOutcome.httpResponse 200) 500).2 = [])) :=
  ⟨by decide, probe_refresh_on_transition startingInfo 500 (by decide)⟩

/-- Counterexample to C4 as stated: a 200 probe on an already-healthy
record does not refresh `last_heartbeat` — here it stays 100 instead of
becoming 500. -/
theorem probe_no_refresh_when_already_healthy :
    sampleInfo.health_check.enabled = true ∧
    sampleInfo.status = ServiceStatus.healthy ∧
    (checkServiceHealth sampleInfo (ProbeOutcome.httpResponse 200) 500).1.last_heartbeat =
      100 := by decide

/-! ### C5 -/

/-- C5 (amended): once a record's status is not `starting`, no health probe
and no heartbeat brings it back to `starting` — probes only flip between
healthy and unhealthy and heartbeats keep the status; an explicit
`update_service` call, however, may set any status, `starting` included. -/
theorem no_starting_reentry_probe_heartbeat (info : ServiceInfo)
    (probe : ProbeOutcome) (now : Int) (s : Cache) (service_id : String)
    (h : info.status ≠ ServiceStatus.starting) :
    (checkServiceHealth info probe now).1.status ≠ ServiceStatus.starting ∧
    (∀ info2, cacheGet (heartbeat s service_id now).1 service_id = some info2 →
      ∃ info1, cacheGet s service_id = some info1 ∧ info2.status = info1.status) := by
  constructor
  · rcases checkServiceHealth_shape info probe now with hh | hh | hh <;>
      rw [hh] <;> simp [h]
  · intro info2 h2
    unfold heartbeat at h2
    cases hg : cacheGet s service_id with
    | none =>
      rw [hg] at h2
      rw [hg] at h2
      cases h2
    | some info1 =>
      rw [hg] at h2
      rw [cacheGet_cacheSet_self] at h2
      have he2 : info2 = { info1 with last_heartbeat := now } :=
        (Option.some.inj h2).symm
      exact ⟨info1, rfl, by rw [he2]⟩

/-- Witness for C5: a healthy record, a failing probe, a heartbeat. -/
theorem no_starting_reentry_witness :
    sampleInfo.status ≠ ServiceStatus.starting ∧
    ((checkServiceHealth sampleInfo ProbeOutcome.transportError 400).1.status ≠
        ServiceStatus.starting ∧
     (∀ info2, cacheGet (heartbeat [("svc-1", sampleInfo)] "svc-1" 400).1 "svc-1" =
          some info2 →
        ∃ info1, cacheGet [("svc-1", sampleInfo)] "svc-1" = some info1 ∧
          info2.status = info1.status)) :=
  ⟨by decide,
   no_starting_reentry_probe_heartbeat sampleInfo ProbeOutcome.transportError 400
     [("svc-1", sampleInfo)] "svc-1" (by decide)⟩

/-- Counterexample to C5 as stated: an explicit `update_service` with
`status = starting` sends a record that had long left `starting` straight
back to it. -/
theorem update_can_reenter_starting :
    (cacheGet (update_service [("svc-1", sampleInfo)] "svc-1"
        { status := some ServiceStatus.starting } 300).1 "svc-1").map
      ServiceInfo.status = some ServiceStatus.starting := by decide

/-! ### C6 -/

/-- A second well-formed record for the bulk-load scenario. -/
def infoC : ServiceInfo :=
  { sampleInfo with service_id := "svc-c", name := "worker-c" }

/-- C6: the startup bulk load runs the whole child loop inside one
try/except, so the first corrupt child aborts the loop — the well-formed
record before the corrupt entry is loaded, but the well-formed record after
it is NOT cached, contradicting the required per-entry skipping. -/
theorem load_aborts_after_corrupt :
    cacheGet (load_services_from_zk []
      [("svc-1", ZkNodeData.valid sampleInfo),
       ("svc-bad", ZkNodeData.corrupt),
       ("svc-c", ZkNodeData.valid infoC)]) "svc-1" = some sampleInfo ∧
    cacheGet (load_services_from_zk []
      [("svc-1", ZkNodeData.valid sampleInfo),
       ("svc-bad", ZkNodeData.corrupt),
       ("svc-c", ZkNodeData.valid infoC)]) "svc-c" = none := by decide

/-- A record one second beyond the staleness boundary
(`last_heartbeat = now - ttl - 1` for now = 1000, ttl = 60). -/
def staleInfo : ServiceInfo :=
  { sampleInfo with service_id := "svc-old", last_heartbeat := 939 }

/-- A record one second inside the staleness boundary
(`last_heartbeat = now - ttl + 1` for now = 1000, ttl = 60). -/
def freshInfo : ServiceInfo :=
  { sampleInfo with service_id := "svc-new", last_heartbeat := 941 }

/-- Witness for C3 with one record on each side of the boundary. -/
theorem cleanup_stale_boundary_witness :
    (([("svc-old", staleInfo), ("svc-new", freshInfo)] : Cache).map Prod.fst).Nodup ∧
    ((∀ service_id info,
        cacheGet [("svc-old", staleInfo), ("svc-new", freshInfo)] service_id =
          some info →
        ((info.last_heartbeat < 1000 - serviceTtl →
            cacheGet (cleanup_stale_services
              [("svc-old", staleInfo), ("svc-new", freshInfo)] 1000).1 service_id =
              none) ∧
         (¬ info.last_heartbeat < 1000 - serviceTtl →
            cacheGet (cleanup_stale_services
              [("svc-old", staleInfo), ("svc-new", freshInfo)] 1000).1 service_id =
              some info))) ∧
     (cleanup_stale_services [("svc-old", staleInfo), ("svc-new", freshInfo)]
        1000).2.1 =
       (([("svc-old", staleInfo), ("svc-new", freshInfo)] : Cache).filter
         (fun p => decide (p.2.last_heartbeat < 1000 - serviceTtl))).length ∧
     (cleanup_stale_services [("svc-old", staleInfo), ("svc-new", freshInfo)]
        1000).2.2 =
       (([("svc-old", staleInfo), ("svc-new", freshInfo)] : Cache).filter
         (fun p => decide (p.2.last_heartbeat < 1000 - serviceTtl))).map
         (fun p => ZkOp.deleteNode (svcPath p.1))) :=
  ⟨by decide,
   cleanup_stale_boundary [("svc-old", staleInfo), ("svc-new", freshInfo)] 1000
     (by decide)⟩
